import Mathlib

/-!
A shallow embedding of the r7scad scene-graph builder and serializer
(src/scad/scad.py, src/scad/core.py, src/scad/operators.py,
src/scad/primitives.py), together with theorems settling the claims about
its specification.

Modelling conventions:
* Python numbers are embedded as `Int` (all numeric literals relevant to the
  claims are integers; `str` of a Python int is its decimal literal, matched
  by `toString : Int → String`).
* Python sequences keep the list/tuple distinction, because the serializer
  renders elements with Python's `str`, which differs between the two.
* Python `Dict[str, Any]` argument maps are insertion-ordered, embedded as
  association lists `List (String × Option Value)`; a `none` value embeds a
  Python `None` entry.
* Exceptions are embedded as `Except PyError`.
-/

namespace R7scad

/-- The closed union of OpenSCAD argument values handled by
`format_value` in src/scad/scad.py: bool | number | string |
sequence-of-Value, with Python's list/tuple distinction kept. -/
inductive Value where
  | bool (b : Bool)
  | int (n : Int)
  | str (s : String)
  | list (vs : List Value)
  | tup (vs : List Value)

mutual

/-- Python's `repr` on embedded values: `repr` of a bool is `True`/`False`,
of an int its decimal literal, of a string the single-quoted text (faithful
for strings without quotes, backslashes or control characters, the only ones
appearing in this development), of a list the bracketed comma-join of the
elements' `repr`s, of a tuple the parenthesised comma-join (with Python's
trailing comma for a 1-tuple). -/
def pyRepr : Value → String
  | .bool b => if b then "True" else "False"
  | .int n => toString n
  | .str s => "'" ++ s ++ "'"
  | .list vs => "[" ++ pyReprJoin vs ++ "]"
  | .tup [v] => "(" ++ pyRepr v ++ ",)"
  | .tup vs => "(" ++ pyReprJoin vs ++ ")"

/-- `", ".join(repr(x) for x in vs)`. -/
def pyReprJoin : List Value → String
  | [] => ""
  | [v] => pyRepr v
  | v :: vs => pyRepr v ++ ", " ++ pyReprJoin vs

end

/-- Python's `str` on embedded values: identical to `repr` except that a
top-level string is rendered without quotes. -/
def pyStr : Value → String
  | .str s => s
  | v => pyRepr v

/-- `format_value` from src/scad/scad.py lines 11-25: bool → `true`/`false`;
int/float → `str(value)`; list/tuple → `"[" + ", ".join(str(item) for item
in value) + "]"` (note: `str(item)`, not a recursive `format_value`);
str → double-quoted. The final `raise ValueError` branch is unreachable
here because `Value` is exactly the closed union the function accepts. -/
def format_value : Value → String
  | .bool b => if b then "true" else "false"
  | .int n => toString n
  | .list vs => "[" ++ String.intercalate ", " (vs.map pyStr) ++ "]"
  | .tup vs => "[" ++ String.intercalate ", " (vs.map pyStr) ++ "]"
  | .str s => "\"" ++ s ++ "\""

/-- `format_argument` from src/scad/scad.py lines 28-32. -/
def format_argument (name : String) (value : Value) : String :=
  name ++ "=" ++ format_value value

/-- `format_command_arguments` from src/scad/scad.py lines 35-39: comma-join
of `name=value` for the entries whose value is not `None`, in insertion
order. -/
def format_command_arguments (arguments : List (String × Option Value)) : String :=
  String.intercalate ", "
    (arguments.filterMap fun p => p.2.map fun v => format_argument p.1 v)

/-- `indent` from src/scad/scad.py lines 42-46. -/
def indent (indentation : Nat) (line : String) : String :=
  String.mk (List.replicate indentation ' ') ++ line

/-- `debug_commands = set("%#|*")` from src/scad/scad.py line 49. -/
def debug_commands : List String := ["%", "#", "|", "*"]

/-- src/scad/scad.py lines 51-57. -/
def commands_to_skip_if_less_than_two_children : List String :=
  ["union", "difference", "intersection", "minkowski", "hull"]

/-- src/scad/scad.py lines 59-65: the union of the singleton-collapse set,
the debug commands and `render`. -/
def commands_to_skip_if_no_children : List String :=
  commands_to_skip_if_less_than_two_children ++ debug_commands ++ ["render"]

/-- The `Module` Node tree: `Command` is the dataclass of src/scad/scad.py
lines 87-95 (name, ordered argument map, ordered children). `Commented` is
imported by src/scad/core.py line 12 from scad.scad but its class is absent
from the sources; its constructor shape (text, child) is taken from its
call sites in core.py. -/
inductive Module where
  | command (name : String) (arguments : List (String × Option Value))
      (children : List Module)
  | commented (text : String) (child : Module)

/-- The header text of src/scad/scad.py lines 101-104: the bare name for the
four single-character debug commands, otherwise `name(arguments)`. -/
def Module.header (name : String) (arguments : List (String × Option Value)) : String :=
  if name ∈ debug_commands then name
  else name ++ "(" ++ format_command_arguments arguments ++ ")"

/-- Modelled from the spec: the `Commented` Node class is imported by
src/scad/core.py line 12 but its definition is absent from src/scad/scad.py.
Per spec §3 and §4.3 a `Commented` node "always emits the comment then the
child's lines verbatim (no indentation change, no collapsing)", the comment
text split into one output line per input line. These are the comment's own
lines. -/
def Commented.comment_lines (text : String) : List String :=
  text.splitOn "\n"

mutual

/-- `Command.to_scad` from src/scad/scad.py lines 97-123, extended to the
`commented` node whose emission (comment lines, then the child's lines
verbatim, ignoring all collapsing rules) is modelled from the spec via
`Commented.comment_lines` because the class is missing from the sources. -/
def Module.to_scad : Module → List String
  | .command name arguments [] =>
    if name ∈ commands_to_skip_if_no_children then []
    else [Module.header name arguments ++ ";"]
  | .command name arguments [child] =>
    (if name ∈ commands_to_skip_if_less_than_two_children then []
     else [Module.header name arguments]) ++ child.to_scad
  | .command name arguments (c₁ :: c₂ :: rest) =>
    (Module.header name arguments ++ " \x7b")
      :: Module.to_scad_children (c₁ :: c₂ :: rest) ++ ["\x7d"]
  | .commented text child => Commented.comment_lines text ++ child.to_scad

/-- The loop of src/scad/scad.py lines 119-120: each child's lines, each
indented by 4, concatenated in child order. -/
def Module.to_scad_children : List Module → List String
  | [] => []
  | child :: rest =>
    (child.to_scad).map (indent 4) ++ Module.to_scad_children rest

end

/-- `Vector3` from src/scad/core.py line 14, with numeric components
embedded as `Int`. -/
def Vector3 := Int × Int × Int

/-- The `angle_deg: Vector3 | float` parameter of `Rotation.__init__`
(src/scad/core.py line 293): either a scalar angle or a tuple of three
Euler angles. -/
inductive RotationAngle where
  | scalar (a : Int)
  | euler (v : Vector3)

/-- The Python exceptions arising in the embedded fragment of core.py. -/
inductive PyError where
  | valueError
  | unboundLocalError

/-- The builder layer: the `ScadObject` subclasses of src/scad/core.py and
src/scad/operators.py that the claims are about, as one sum type.
`simpleModule` is `SimpleModule` (core.py lines 210-230), `iduObject` is
`IDUObject` (operators.py lines 68-141) with its three ordered lists,
`namedWrapper` is `NamedWrapper` (core.py lines 145-189; `objectName` is
`None` or a string, `hiddenNames` the set of hidden descendant names),
`commentedWrapper` is `CommentedWrapper` (core.py lines 192-207), and
`rotation` is a successfully constructed `Rotation` (core.py lines 288-315;
the transformation matrix is not stored because nothing in the embedded
fragment reads it). -/
inductive ScadObject where
  | simpleModule (name : String) (arguments : List (String × Option Value))
      (children : List ScadObject)
  | iduObject (positives negatives intersections : List ScadObject)
  | namedWrapper (child : ScadObject) (objectName : Option String)
      (hiddenNames : List String)
  | commentedWrapper (child : ScadObject) (comment : String)
  | rotation (child : ScadObject) (angle : RotationAngle) (axis : Option Vector3)

/-- A `Vector3` as the tuple `Value` it is serialized as. -/
def Vector3.toValue (v : Vector3) : Value :=
  .tup [.int v.1, .int v.2.1, .int v.2.2]

/-- The stored `angle_deg` as the `Value` placed in the `a` argument of the
`rotate` command. -/
def RotationAngle.toValue : RotationAngle → Value
  | .scalar a => .int a
  | .euler v => v.toValue

mutual

/-- `to_command` of each builder class: `SimpleModule.to_command`
(core.py lines 225-230), `IDUObject.to_command` (operators.py lines
130-141: a `union` of the positives is prepended to the negatives under
`difference`, which is prepended to the intersections under
`intersection`), `NamedWrapper.to_command` (core.py lines 186-189: wrap in
`Commented` exactly when the name is not `None`), `CommentedWrapper.to_command`
(core.py lines 206-207) and `Rotation.to_command` (core.py lines 310-315:
a `rotate` command with `a` the angle and `v` the axis, `None` when absent). -/
def ScadObject.to_command : ScadObject → Module
  | .simpleModule name arguments children =>
    .command name arguments (ScadObject.to_command_list children)
  | .iduObject positives negatives intersections =>
    .command "intersection" []
      (.command "difference" []
          (.command "union" [] (ScadObject.to_command_list positives)
            :: ScadObject.to_command_list negatives)
        :: ScadObject.to_command_list intersections)
  | .namedWrapper child (some n) _ => .commented n child.to_command
  | .namedWrapper child none _ => child.to_command
  | .commentedWrapper child comment => .commented comment child.to_command
  | .rotation child angle axis =>
    .command "rotate" [("a", some angle.toValue), ("v", axis.map Vector3.toValue)]
      [child.to_command]

/-- `[child.to_command() for child in children]`. -/
def ScadObject.to_command_list : List ScadObject → List Module
  | [] => []
  | c :: cs => c.to_command :: ScadObject.to_command_list cs

end

/-- `iter_children` of each builder class: `SimpleModule` yields its
children (core.py lines 222-223), `IDUObject` chains its three lists
(operators.py lines 96-97), and each single-child wrapper yields its one
child (core.py lines 183-184, 203-204, 251-252). -/
def ScadObject.iter_children : ScadObject → List ScadObject
  | .simpleModule _ _ children => children
  | .iduObject positives negatives intersections =>
    positives ++ negatives ++ intersections
  | .namedWrapper child _ _ => [child]
  | .commentedWrapper child _ => [child]
  | .rotation child _ _ => [child]

mutual

/-- `search` from src/scad/core.py: the base `ScadObject.search` (lines
25-32) concatenates the results of searching every child with the same
path; `NamedWrapper.search` (lines 171-181) first consumes the leading
path segment if it equals its own name (returning itself when the path is
then exhausted), then returns no matches at all if the current leading
segment is a hidden name, and otherwise searches its child with the
current path. The empty-path case of the wrapper is unreachable from any
nonempty top-level path (Python would raise `IndexError` there); it is
mapped to the empty result. For the single-child wrappers the loop over
`iter_children() = [child]` is written as the direct call
`child.search name_parts` it amounts to. -/
def ScadObject.search : ScadObject → List String → List ScadObject
  | .namedWrapper child objectName hiddenNames, name_parts =>
    match name_parts with
    | [] => []
    | p :: rest =>
      if some p = objectName then
        match rest with
        | [] => [.namedWrapper child objectName hiddenNames]
        | q :: rest₂ =>
          if q ∈ hiddenNames then []
          else child.search (q :: rest₂)
      else
        if p ∈ hiddenNames then []
        else child.search (p :: rest)
  | .simpleModule _ _ children, name_parts =>
    ScadObject.search_children children name_parts
  | .iduObject positives negatives intersections, name_parts =>
    ScadObject.search_children positives name_parts
      ++ ScadObject.search_children negatives name_parts
      ++ ScadObject.search_children intersections name_parts
  | .commentedWrapper child _, name_parts => child.search name_parts
  | .rotation child _ _, name_parts => child.search name_parts

/-- The loop `for child in self.iter_children(): result.extend(child.search(name_parts))`. -/
def ScadObject.search_children : List ScadObject → List String → List ScadObject
  | [], _ => []
  | c :: cs, name_parts =>
    c.search name_parts ++ ScadObject.search_children cs name_parts

end

/-- `ScadObject.named` from src/scad/core.py lines 57-61. -/
def ScadObject.named (self : ScadObject) (name : String)
    (hidden_names : List String) : ScadObject :=
  .namedWrapper self (some name) hidden_names

/-- `ScadObject.with_hidden_descendants` from src/scad/core.py lines 71-75:
a `NamedWrapper` with name `None`. -/
def ScadObject.with_hidden_descendants (self : ScadObject)
    (hidden_names : List String) : ScadObject :=
  .namedWrapper self none hidden_names

/-- `ScadObject.rotated` / `Rotation.__init__` from src/scad/core.py lines
96-100 and 293-305. With an explicit axis, a tuple `angle_deg` raises
`ValueError` ("When angle_deg specified as a vector, axis must be None")
and a scalar angle succeeds (the axis-angle matrix is computed by the
black-box linear-algebra collaborator). With no axis, a tuple of Euler
angles succeeds, but a scalar angle leaves the local `rotation_matrix`
unassigned, so the subsequent `transform_from(rotation_matrix, (0, 0, 0))`
raises `UnboundLocalError`. -/
def ScadObject.rotated (self : ScadObject) (angle_deg : RotationAngle)
    (axis : Option Vector3) : Except PyError ScadObject :=
  match axis with
  | some _ =>
    match angle_deg with
    | .euler _ => .error .valueError
    | .scalar _ => .ok (.rotation self angle_deg axis)
  | none =>
    match angle_deg with
    | .euler _ => .ok (.rotation self angle_deg axis)
    | .scalar _ => .error .unboundLocalError

/-- `box` from src/scad/primitives.py lines 10-14. -/
def box (x y z : Int) (center : Bool) : ScadObject :=
  .simpleModule "cube"
    [("size", some (.tup [.int x, .int y, .int z])), ("center", some (.bool center))] []

/-- One mutating call on an `IDUObject`: `add_positive`, `add_negative` or
`intersect` (src/scad/operators.py lines 99-119), each appending its
argument to the corresponding list. -/
inductive IDUOp where
  | add_positive (s : ScadObject)
  | add_negative (s : ScadObject)
  | intersect (s : ScadObject)

/-- The effect of one `IDUOp` on the three lists of an `IDUObject`. -/
def IDUObject.step :
    List ScadObject × List ScadObject × List ScadObject → IDUOp →
      List ScadObject × List ScadObject × List ScadObject
  | (p, n, i), .add_positive s => (p ++ [s], n, i)
  | (p, n, i), .add_negative s => (p, n ++ [s], i)
  | (p, n, i), .intersect s => (p, n, i ++ [s])

/-- The `IDUObject` obtained from `IDUObject()` (three empty lists,
operators.py lines 84-94) by an arbitrary interleaved sequence of
`add_positive`/`add_negative`/`intersect` calls. -/
def IDUObject.build (ops : List IDUOp) : ScadObject :=
  let s := ops.foldl IDUObject.step ([], [], [])
  .iduObject s.1 s.2.1 s.2.2

/-- The arguments of the `add_positive` calls among `ops`, in call order. -/
def IDUOp.positives (ops : List IDUOp) : List ScadObject :=
  ops.filterMap fun op => match op with | .add_positive s => some s | _ => none

/-- The arguments of the `add_negative` calls among `ops`, in call order. -/
def IDUOp.negatives (ops : List IDUOp) : List ScadObject :=
  ops.filterMap fun op => match op with | .add_negative s => some s | _ => none

/-- The arguments of the `intersect` calls among `ops`, in call order. -/
def IDUOp.intersections (ops : List IDUOp) : List ScadObject :=
  ops.filterMap fun op => match op with | .intersect s => some s | _ => none

/-- Reachability by direct traversal: the reflexive-transitive closure of
the `iter_children` relation. -/
inductive ScadObject.Reachable : ScadObject → ScadObject → Prop
  | refl (s : ScadObject) : ScadObject.Reachable s s
  | step {s c d : ScadObject} : c ∈ s.iter_children →
      ScadObject.Reachable c d → ScadObject.Reachable s d

/-- The search path as the wrapper sees it after consuming its own
matching leading segment, if any (src/scad/core.py lines 172-173). -/
def consume (objectName : Option String) (p : List String) : List String :=
  match p with
  | [] => []
  | q :: rest => if some q = objectName then rest else q :: rest

theorem to_scad_children_eq (children : List Module) :
    Module.to_scad_children children
      = children.flatMap fun c => (c.to_scad).map (indent 4) := by
  induction children with
  | nil => simp [Module.to_scad_children]
  | cons c cs ih => simp [Module.to_scad_children, ih]

theorem to_command_list_eq (l : List ScadObject) :
    ScadObject.to_command_list l = l.map ScadObject.to_command := by
  induction l with
  | nil => simp [ScadObject.to_command_list]
  | cons c cs ih => simp [ScadObject.to_command_list, ih]

/-- C3: a `Command` with exactly one child collapses to exactly the child's
lines when its name is in the collapse-if-singleton set
(union/difference/intersection/minkowski/hull), and otherwise emits its
header as its own line followed by the child's lines with no extra
indentation and no braces. -/
theorem to_scad_one_child (name : String)
    (arguments : List (String × Option Value)) (child : Module) :
    commands_to_skip_if_less_than_two_children
        = ["union", "difference", "intersection", "minkowski", "hull"] ∧
    (name ∈ commands_to_skip_if_less_than_two_children →
      (Module.command name arguments [child]).to_scad = child.to_scad) ∧
    (name ∉ commands_to_skip_if_less_than_two_children →
      (Module.command name arguments [child]).to_scad
        = Module.header name arguments :: child.to_scad) := by
  refine ⟨rfl, fun h => ?_, fun h => ?_⟩ <;> simp [Module.to_scad, h]

theorem to_scad_one_child_witness :
    ((Module.command "union" [] [Module.command "cube" [] []]).to_scad
        = (Module.command "cube" [] []).to_scad) ∧
    ((Module.command "translate" [("v", some (.tup [.int 1, .int 0, .int 0]))]
          [Module.command "cube" [] []]).to_scad
        = Module.header "translate" [("v", some (.tup [.int 1, .int 0, .int 0]))]
            :: (Module.command "cube" [] []).to_scad) :=
  ⟨(to_scad_one_child "union" [] (Module.command "cube" [] [])).2.1 (by decide),
   (to_scad_one_child "translate" [("v", some (.tup [.int 1, .int 0, .int 0]))]
      (Module.command "cube" [] [])).2.2 (by decide)⟩

/-- C4: a `Command` with zero children emits nothing when its name is in the
no-op-if-empty set (union/difference/intersection/minkowski/hull/%/#/|/*/render),
and otherwise emits the single line `header;`. -/
theorem to_scad_zero_children (name : String)
    (arguments : List (String × Option Value)) :
    commands_to_skip_if_no_children
        = ["union", "difference", "intersection", "minkowski", "hull",
           "%", "#", "|", "*", "render"] ∧
    (name ∈ commands_to_skip_if_no_children →
      (Module.command name arguments []).to_scad = []) ∧
    (name ∉ commands_to_skip_if_no_children →
      (Module.command name arguments []).to_scad
        = [Module.header name arguments ++ ";"]) := by
  refine ⟨rfl, fun h => ?_, fun h => ?_⟩ <;> simp [Module.to_scad, h]

theorem to_scad_zero_children_witness :
    ((Module.command "render" [] []).to_scad = []) ∧
    ((Module.command "cube" [("size", some (.int 2))] []).to_scad
        = [Module.header "cube" [("size", some (.int 2))] ++ ";"]) :=
  ⟨(to_scad_zero_children "render" []).2.1 (by decide),
   (to_scad_zero_children "cube" [("size", some (.int 2))]).2.2 (by decide)⟩

/-- C5: a `Command` with two or more children emits its header line ending
in an opening brace, then every child's lines in child order, each indented
exactly 4 more spaces than in that child's own top-level emission, then a
closing brace line. -/
theorem to_scad_many_children (name : String)
    (arguments : List (String × Option Value)) (children : List Module)
    (h : 2 ≤ children.length) :
    (Module.command name arguments children).to_scad
      = (Module.header name arguments ++ " \x7b")
          :: (children.flatMap fun c => (c.to_scad).map (indent 4)) ++ ["\x7d"] := by
  match children with
  | [] => simp at h
  | [c] => simp at h
  | c₁ :: c₂ :: rest => simp [Module.to_scad, to_scad_children_eq]

theorem to_scad_many_children_witness :
    2 ≤ ([Module.command "cube" [] [], Module.command "sphere" [] []] : List Module).length ∧
    (Module.command "union" []
        [Module.command "cube" [] [], Module.command "sphere" [] []]).to_scad
      = (Module.header "union" [] ++ " \x7b")
          :: (([Module.command "cube" [] [], Module.command "sphere" [] []] : List Module).flatMap
                fun c => (c.to_scad).map (indent 4)) ++ ["\x7d"] :=
  ⟨by decide,
   to_scad_many_children "union" []
     [Module.command "cube" [] [], Module.command "sphere" [] []] (by decide)⟩

theorem foldl_step_eq (ops : List IDUOp)
    (p n i : List ScadObject) :
    ops.foldl IDUObject.step (p, n, i)
      = (p ++ IDUOp.positives ops, n ++ IDUOp.negatives ops,
         i ++ IDUOp.intersections ops) := by
  induction ops generalizing p n i with
  | nil => simp [IDUOp.positives, IDUOp.negatives, IDUOp.intersections]
  | cons op ops ih =>
    cases op <;>
      simp [IDUObject.step, IDUOp.positives, IDUOp.negatives,
        IDUOp.intersections, List.filterMap_cons, ih]

/-- C1: whatever interleaving of `add_positive`/`add_negative`/`intersect`
calls built an `IDUObject`, its `to_command` is the fixed nested shape: an
`intersection` command whose first child is a `difference` command whose
first child is a `union` command holding the positives' commands in
insertion order, then the negatives' commands as further `difference`
children, then the intersection objects' commands as further `intersection`
children — the `union` node being present even when the positive list is
empty. -/
theorem idu_build_to_command (ops : List IDUOp) :
    (IDUObject.build ops).to_command
      = .command "intersection" []
          (.command "difference" []
              (.command "union" []
                  ((IDUOp.positives ops).map ScadObject.to_command)
                :: (IDUOp.negatives ops).map ScadObject.to_command)
            :: (IDUOp.intersections ops).map ScadObject.to_command) := by
  simp [IDUObject.build, foldl_step_eq, ScadObject.to_command, to_command_list_eq]

/-- C2 counterexample: for positives = one 1×1×1 box and negatives = one
2×2×2 box (both center=false), the serialized output is not the four lines
the claim states — the header line is `difference() ` + brace, with the
empty parentheses, not a bare `difference ` + brace. -/
theorem idu_two_cubes_claimed_lines_false :
    ((ScadObject.iduObject [box 1 1 1 false] [box 2 2 2 false] []).to_command).to_scad
      ≠ ["difference \x7b",
         "    cube(size=[1, 1, 1], center=false);",
         "    cube(size=[2, 2, 2], center=false);",
         "\x7d"] := by decide

/-- C2 amended: for positives = one 1×1×1 box and negatives = one 2×2×2 box
(both center=false) and no intersections, serializing `to_command()` yields
exactly four lines: `difference() ` + opening brace, the two cube lines
indented exactly 4 spaces, and the closing brace — the outer `intersection`
and the inner `union` both collapse. -/
theorem idu_two_cubes_lines :
    ((ScadObject.iduObject [box 1 1 1 false] [box 2 2 2 false] []).to_command).to_scad
      = ["difference() \x7b",
         "    cube(size=[1, 1, 1], center=false);",
         "    cube(size=[2, 2, 2], center=false);",
         "\x7d"] := by decide

/-- C6: `format_value` renders the elements of a sequence with Python's
`str`, not recursively with `format_value`: a boolean element comes out as
`True`, a string element unquoted, and a tuple element parenthesised —
contradicting the claim's `true` / double-quoted / square-bracketed
renderings. Top-level booleans, numbers and strings do follow the claim. -/
theorem format_value_sequence_via_pystr :
    format_value (.bool true) = "true" ∧
    format_value (.str "red") = "\"red\"" ∧
    format_value (.list [.bool true]) = "[True]" ∧
    format_value (.list [.str "red"]) = "[red]" ∧
    format_value (.list [.tup [.int 1, .int 2]]) = "[(1, 2)]" := by decide

/-- C7: constructing a rotation from a vector of Euler angles together with
an explicit axis fails as the claim states, but a scalar angle with no axis
also fails at construction — `rotation_matrix` is never assigned on that
path, so `transform_from` raises `UnboundLocalError` — contradicting the
claim that every admitted shape other than vector-plus-axis succeeds. -/
theorem rotated_scalar_without_axis_raises :
    ScadObject.rotated (box 1 1 1 false) (.euler (0, 0, 90)) (some (0, 0, 1))
        = .error .valueError ∧
    ScadObject.rotated (box 1 1 1 false) (.euler (0, 0, 90)) none
        = .ok (.rotation (box 1 1 1 false) (.euler (0, 0, 90)) none) ∧
    ScadObject.rotated (box 1 1 1 false) (.scalar 45) (some (0, 0, 1))
        = .ok (.rotation (box 1 1 1 false) (.scalar 45) (some (0, 0, 1))) ∧
    ScadObject.rotated (box 1 1 1 false) (.scalar 45) none
        = .error .unboundLocalError :=
  ⟨rfl, rfl, rfl, rfl⟩

/-- C8: if a `NamedWrapper` hides the name `N` and the search path's leading
segment — after the wrapper consumes its own matching name, if any — is
`N`, then `search` returns no matches from the wrapper's subtree at all,
while every object reachable from the wrapped child by direct `iter_children`
traversal (in particular a descendant named `N`) stays reachable from the
wrapper. -/
theorem named_wrapper_prunes_hidden (child : ScadObject)
    (objectName : Option String) (hiddenNames : List String)
    (p : List String) (N : String) (d : ScadObject)
    (hmem : N ∈ hiddenNames)
    (hhead : (consume objectName p).head? = some N)
    (hreach : ScadObject.Reachable child d) :
    ScadObject.search (.namedWrapper child objectName hiddenNames) p = [] ∧
    ScadObject.Reachable (.namedWrapper child objectName hiddenNames) d := by
  refine ⟨?_, .step (by simp [ScadObject.iter_children]) hreach⟩
  match p with
  | [] => simp [consume] at hhead
  | q :: rest =>
    by_cases hq : some q = objectName
    · have hr : rest.head? = some N := by simpa [consume, hq] using hhead
      match rest with
      | [] => simp at hr
      | r :: rest₂ =>
        have : r = N := by simpa using hr
        subst this
        simp [ScadObject.search, hq, hmem]
    · have : q = N := by simpa [consume, hq] using hhead
      subst this
      simp [ScadObject.search, hq, hmem]

theorem named_wrapper_prunes_hidden_witness :
    ScadObject.search
        (.namedWrapper (.namedWrapper (.simpleModule "cube" [] []) (some "B") [])
          none ["B"]) ["B"] = [] ∧
    ScadObject.Reachable
        (.namedWrapper (.namedWrapper (.simpleModule "cube" [] []) (some "B") [])
          none ["B"])
        (.namedWrapper (.simpleModule "cube" [] []) (some "B") []) :=
  named_wrapper_prunes_hidden
    (.namedWrapper (.simpleModule "cube" [] []) (some "B") []) none ["B"]
    ["B"] "B" (.namedWrapper (.simpleModule "cube" [] []) (some "B") [])
    (by decide) (by decide) (.refl _)

/-- C10: `named(n)` wraps the receiver's command in a `Commented` node whose
text is exactly `n` — so naming does change the emitted text, prefixing the
name's comment lines — while a `NamedWrapper` with no name, as produced by
`with_hidden_descendants`, has a `to_command` equal to its child's and is
fully transparent in the Node tree. -/
theorem named_wrapper_to_command (s : ScadObject) (n : String)
    (hidden : List String) :
    (s.named n hidden).to_command = .commented n s.to_command ∧
    ((s.named n hidden).to_command).to_scad
      = Commented.comment_lines n ++ (s.to_command).to_scad ∧
    (s.with_hidden_descendants hidden).to_command = s.to_command := by
  refine ⟨rfl, ?_, rfl⟩
  simp [ScadObject.named, ScadObject.to_command, Module.to_scad]

/-- C9: a `Commented` node ignores all collapsing rules: it emits the
comment text, one output line per input line, followed by the child's lines
verbatim at the same indentation level. -/
theorem commented_to_scad (text : String) (child : Module) :
    (Module.commented text child).to_scad
      = Commented.comment_lines text ++ child.to_scad ∧
    Commented.comment_lines text = text.splitOn "\n" := by
  exact ⟨by simp [Module.to_scad], rfl⟩

end R7scad
